import Mathlib

/-!
Shallow embedding of `astrbot/core/provider/sources/gemini_source.py`
(the Google Gemini chat-completion adapter): the wire-schema translation,
the capability-negotiation retry loop of `_query`, the key-rotation retry
loop of `text_chat`, the emulated streaming of `text_chat_stream`, and the
in-place mutations that `text_chat`/`_query` perform on the caller's
conversation history.

Python's string primitives are embedded as executable functions on
`List Char` so that every definition evaluates inside the kernel:
`strContains s pat` is Python's `pat in s`, `pyReplace s pat rep` is
Python's `s.replace(pat, rep)` (all non-overlapping occurrences, left to
right), `pyStartsWith s pat` is `s.startswith(pat)`.
-/

/-- `dropPref pat s` returns `some rest` when `pat` is a prefix of `s`,
with `rest` the remainder, and `none` otherwise. -/
def dropPref : List Char → List Char → Option (List Char)
  | [], s => some s
  | _ :: _, [] => none
  | p :: ps, c :: cs => if p = c then dropPref ps cs else none

/-- Substring search on char lists (Python's `pat in s`). -/
def listContainsSub (pat : List Char) : List Char → Bool
  | [] => pat.isEmpty
  | c :: cs => (dropPref pat (c :: cs)).isSome || listContainsSub pat cs

/-- Python's `pat in s` for strings. -/
def strContains (s pat : String) : Bool := listContainsSub pat.data s.data

/-- Fuel-indexed worker for `pyReplace`; the fuel is the length of the
subject string, enough for any non-empty pattern. -/
def replaceAllAux (pat rep : List Char) : Nat → List Char → List Char
  | 0, s => s
  | _ + 1, [] => []
  | n + 1, c :: cs =>
    match dropPref pat (c :: cs) with
    | some rest => rep ++ replaceAllAux pat rep n rest
    | none => c :: replaceAllAux pat rep n cs

/-- Python's `s.replace(pat, rep)`: every non-overlapping occurrence of
`pat` anywhere in `s` is replaced, not only a leading one. -/
def pyReplace (s pat rep : String) : String :=
  String.mk (replaceAllAux pat.data rep.data s.data.length s.data)

/-- Python's `s.startswith(pat)`. -/
def pyStartsWith (s pat : String) : Bool := (dropPref pat.data s.data).isSome

/-! ## `SimpleGoogleGenAIClient.models_list` (gemini_source.py lines 28-37) -/

/-- One vendor model descriptor, the two fields the code reads. -/
structure ModelDesc where
  name : String
  supportedGenerationMethods : List String
deriving DecidableEq

/-- The accumulation loop of `models_list`: keep models whose
`supportedGenerationMethods` contain `"generateContent"` and append
`model["name"].replace("models/", "")`. -/
def models_list : List ModelDesc → List String
  | [] => []
  | m :: rest =>
    if m.supportedGenerationMethods.contains "generateContent" then
      pyReplace m.name "models/" "" :: models_list rest
    else
      models_list rest

/-- Strip a *leading* `models/` path segment only, leaving the remainder of
the name unchanged; written from the claim's words, to be compared with
`models_list` which uses Python's replace-all. -/
def stripLeadingModels (name : String) : String :=
  if pyStartsWith name "models/" then String.mk (name.data.drop 7) else name

/-- The eligible-model listing as the claim states it: filter on the
supported methods and strip only a leading `models/` segment. -/
def models_list_claim (ds : List ModelDesc) : List String :=
  (ds.filter fun m => m.supportedGenerationMethods.contains "generateContent").map
    fun m => stripLeadingModels m.name

/-! ## Wire-schema parts and the user-turn fan-out (lines 188-207) -/

/-- A vendor functionCall argument object, carried through undecoded. -/
abbrev GArgs := String

/-- One vendor content part, request or response side: `{text}`,
`{functionCall: {name, args}}`, or the inline-binary part
(`inline_data`/`mime_type` on the request side, `inlineData`/`mimeType`
on the response side; one constructor serves both spellings). -/
inductive GPart where
  | text (s : String)
  | functionCall (name : String) (args : GArgs)
  | inlineData (mimeType : String) (data : String)
deriving DecidableEq

/-- One item of a user turn's list content: `{type: "text", text}` or
`{type: "image_url", image_url: {url}}`. -/
inductive ContentItem where
  | text (s : String)
  | image_url (url : String)
deriving DecidableEq

/-- The fan-out loop for a user turn with list content (lines 191-206):
a text item becomes a text part (the source's falsy-normalisation
`part["text"] = ""` is the identity on the strings modelled here); an
image-URL item becomes an inline-binary part with the fixed MIME type
`image/jpeg` and data `url.replace("data:image/jpeg;base64,", "")`. -/
def encode_user_items : List ContentItem → List GPart
  | [] => []
  | .text s :: rest => .text s :: encode_user_items rest
  | .image_url u :: rest =>
    .inlineData "image/jpeg" (pyReplace u "data:image/jpeg;base64," "") ::
      encode_user_items rest

/-- Drop everything up to and including the first comma. -/
def dropThroughComma : List Char → List Char
  | [] => []
  | c :: cs => if c = ',' then cs else dropThroughComma cs

/-- Stripping *any* image data-URL prefix (`data:image/<fmt>;base64,` for
any format), written from the claim's words, to be compared with the
jpeg-only replace the code performs. -/
def stripAnyImageDataUrl (u : String) : String :=
  if pyStartsWith u "data:image/" then String.mk (dropThroughComma u.data) else u

/-! ## The unified response object -/

/-- One assembled output segment: `Comp.Plain(text)` or
`Comp.Image.fromBase64(data)`. -/
inductive Seg where
  | plain (text : String)
  | image (dataB64 : String)
deriving DecidableEq

/-- Modelled from the spec: `LLMResponse` (the UnifiedResponse) lives in
`astrbot.core.provider.entities`, which is not among the shown sources;
its fields are those the adapter code reads and writes — a role
(`assistant`/`tool`), the ordered result chain of segments, the parallel
tool-call argument/name/id lists, and the streaming flag. -/
structure LLMResponse where
  role : String
  result_chain : List Seg
  tools_call_args : List GArgs
  tools_call_name : List String
  tools_call_ids : List String
  is_chunk : Bool
deriving DecidableEq

/-- Modelled from the spec: `LLMResponse("assistant")` — a fresh response
with the given role, empty segment and tool-call lists, not a chunk. -/
def LLMResponse.init (role : String) : LLMResponse :=
  { role := role, result_chain := [], tools_call_args := [], tools_call_name := [],
    tools_call_ids := [], is_chunk := false }

/-! ## Response decoding (lines 290-308) -/

/-- The decode loop over the first candidate's parts, threading the
mutable `llm_response` and the `chain` list exactly as the source does:
a text part appends a plain segment; a functionCall part sets the role to
`"tool"` and appends args, name, and name-as-id to the three tool-call
lists; an inlineData part appends an image segment only when its MIME
type starts with `image/`. -/
def decode_parts_loop : List GPart → LLMResponse → List Seg → LLMResponse × List Seg
  | [], r, chain => (r, chain)
  | .text s :: rest, r, chain => decode_parts_loop rest r (chain ++ [Seg.plain s])
  | .functionCall n a :: rest, r, chain =>
    decode_parts_loop rest
      { r with role := "tool",
               tools_call_args := r.tools_call_args ++ [a],
               tools_call_name := r.tools_call_name ++ [n],
               tools_call_ids := r.tools_call_ids ++ [n] } chain
  | .inlineData mime dat :: rest, r, chain =>
    if pyStartsWith mime "image/" then
      decode_parts_loop rest r (chain ++ [Seg.image dat])
    else
      decode_parts_loop rest r chain

/-- Decoding of candidate parts into the unified response, starting from
`LLMResponse("assistant")` and installing the collected chain as
`result_chain`. -/
def decode_parts (parts : List GPart) : LLMResponse :=
  let p := decode_parts_loop parts (LLMResponse.init "assistant") []
  { p.1 with result_chain := p.2 }

/-! ## `generate_content`'s payload construction (lines 48-60) -/

/-- One turn of the vendor-shaped conversation: `{role, parts}`. -/
structure GTurn where
  role : String
  parts : List GPart
deriving DecidableEq

/-- The JSON payload `generate_content` posts; `system_instruction` is
`some si` exactly when the payload carries the field (the wrapper
`parts.text = si` is elided), `tools` is the one-element wrapping
`[tools]` when the argument is truthy. -/
structure GenPayload where
  system_instruction : Option String
  tools : Option (List String)
  contents : List GTurn
  responseModalities : List String
  safetySettings : List (String × String)
deriving DecidableEq

/-- Payload construction of `generate_content`: the `system_instruction`
field is present iff the string is non-empty (Python truthiness), the
`tools` field is present iff a tool schema was passed, `contents`,
modalities and safety settings are carried through. -/
def generate_content_payload (contents : List GTurn) (system_instruction : String)
    (tools : Option String) (modalities : List String)
    (safety_settings : List (String × String)) : GenPayload :=
  { system_instruction := if system_instruction = "" then none else some system_instruction,
    tools := match tools with
      | some t => some [t]
      | none => none,
    contents := contents,
    responseModalities := modalities,
    safetySettings := safety_settings }

/-! ## The capability-negotiation loop of `_query` (lines 252-288) -/

/-- A parsed vendor response body: `repr` abstracts Python's
`str(result)` (the text the rejection substrings are searched in) and
`candidates` is `some` exactly when the `"candidates"` key is present,
holding each candidate's `content.parts`. -/
structure GemResult where
  repr : String
  candidates : Option (List (List GPart))
deriving DecidableEq

/-- The rejection substring for an unsupported system instruction. -/
def devInstrPhrase : String := "Developer instruction is not enabled"

/-- The rejection substring for unsupported function calling. -/
def funcCallPhrase : String := "Function calling is not enabled"

/-- The rejection substring for unsupported multi-modal output. -/
def multiModalPhrase : String := "Multi-modal output is not supported"

/-- The mutable request state the negotiation loop may strip: the system
instruction string, the tool schema, and the modality list (the source's
spelling `modalites` is kept). -/
structure NegState where
  system_instruction : String
  tool : Option String
  modalites : List String
deriving DecidableEq

/-- How one `_query` loop iteration resolves when it does not retry:
either the candidates are extracted, or
`Exception("Gemini 返回异常结果: " + str(result))` is raised. -/
inductive QueryOutcome where
  | ok (candidates : List (List GPart))
  | vendorError (msg : String)
deriving DecidableEq

/-- One iteration of the `while loop:` in `_query` after the response
`result` arrives: the three rejection substrings are tried in order and
the matching feature is stripped (`Sum.inl` = set `loop = True` and go
round again); otherwise a missing `candidates` key raises, and a present
one ends the loop successfully. -/
def query_step (s : NegState) (result : GemResult) : NegState ⊕ QueryOutcome :=
  if strContains result.repr devInstrPhrase then
    .inl { s with system_instruction := "" }
  else if strContains result.repr funcCallPhrase then
    .inl { s with tool := none }
  else if strContains result.repr multiModalPhrase then
    .inl { s with modalites := ["Text"] }
  else
    match result.candidates with
    | none => .inr (.vendorError ("Gemini 返回异常结果: " ++ result.repr))
    | some cs => .inr (.ok cs)

/-- The `_query` loop run against a *sequence* of vendor responses (the
`i`-th attempt receives `resp i`), with explicit fuel since the source
loop has no iteration bound.  Returns the trace of request states (one
per attempt, in order) and the outcome, or `none` when the fuel is spent
with the loop still going. -/
def query_loop_seq (resp : Nat → GemResult) :
    NegState → Nat → Nat → Option (List NegState × QueryOutcome)
  | _, _, 0 => none
  | s, i, fuel + 1 =>
    match query_step s (resp i) with
    | .inl s2 => (query_loop_seq resp s2 (i + 1) fuel).map fun p => (s :: p.1, p.2)
    | .inr o => some ([s], o)

/-- The `_query` loop run against a vendor whose response is a function
of the request state (each attempt with state `s` receives `resp s`),
with explicit fuel.  Returns the state trace and the outcome, or `none`
when the fuel is spent with the loop still going. -/
def query_loop_fn (resp : NegState → GemResult) :
    NegState → Nat → Option (List NegState × QueryOutcome)
  | _, 0 => none
  | s, fuel + 1 =>
    match query_step s (resp s) with
    | .inl s2 => (query_loop_fn resp s2 fuel).map fun p => (s :: p.1, p.2)
    | .inr o => some ([s], o)

/-- How many strippable features are still active in a request state. -/
def NegState.featureCount (s : NegState) : Nat :=
  (if s.system_instruction = "" then 0 else 1) +
    (if s.tool.isSome then 1 else 0) +
    (if s.modalites = ["Text"] then 0 else 1)

/-! ## The key-rotation loop of `text_chat` (lines 340-372) -/

/-- The retriable-error test of line 352:
`"429" in str(e) or "API key not valid" in str(e)`. -/
def retriableErr (e : String) : Bool :=
  strContains e "429" || strContains e "API key not valid"

/-- How a `text_chat` call resolves: a returned response (`break` then
`return llm_response`), the fall-through return of the still-`None`
`llm_response` when the 10-iteration budget is spent, the raised
rate-limit-exhaustion exception, a re-raised non-retriable error, or the
`IndexError` from `random.choice` on an empty sequence. -/
inductive ChatResult where
  | resp (r : LLMResponse)
  | noneReturned
  | rateLimitRaise
  | reraise (e : String)
  | indexError
deriving DecidableEq

/-- The `for i in range(retry)` loop of `text_chat`, with the attempt
outcomes supplied as `attempt i key` and the random draw supplied as
`pick` (the chosen element is `keys[pick j keys % len(keys)]`, which for
a non-empty list models an arbitrary `random.choice`).  Returns the
number of attempts made together with the result; the fuel starts at the
source's fixed `retry = 10`. -/
def text_chat_loop (attempt : Nat → String → Except String LLMResponse)
    (pick : Nat → List String → Nat) :
    List String → String → Nat → Nat → Nat × ChatResult
  | _, _, _, 0 => (0, .noneReturned)
  | keys, chosen, i, fuel + 1 =>
    match attempt i chosen with
    | .ok r => (1, .resp r)
    | .error e =>
      if retriableErr e then
        let keys2 := keys.erase chosen
        if 0 < keys2.length then
          match keys2.get? (pick (i + 1) keys2 % keys2.length) with
          | some k =>
            let rest := text_chat_loop attempt pick keys2 k (i + 1) fuel
            (rest.1 + 1, rest.2)
          | none => (1, .indexError)
        else (1, .rateLimitRaise)
      else (1, .reraise e)

/-- `text_chat`'s retry harness: copy the pool (`keys = self.api_keys.copy()`),
draw the starting key (`random.choice(keys)` — an `IndexError` when the
pool is empty, before any network request), then run the 10-iteration
loop.  The third component is the provider's `api_keys` after the call:
the source only ever mutates the call-local copy, so the pool is
returned as it was. -/
def text_chat (attempt : Nat → String → Except String LLMResponse)
    (pick : Nat → List String → Nat) (api_keys : List String) :
    Nat × ChatResult × List String :=
  let keys := api_keys
  match keys.get? (pick 0 keys % keys.length) with
  | none => (0, .indexError, api_keys)
  | some chosen =>
    let out := text_chat_loop attempt pick keys chosen 0 10
    (out.1, out.2, api_keys)

/-! ## `text_chat_stream` (lines 374-399) -/

/-- Modelled from the spec: the async-generator `text_chat_stream` is
embedded as the finite list of events it yields.  It calls `text_chat`;
on success it sets `is_chunk = True`, yields, sets `is_chunk = False`,
and yields again (the consumer sees the flag as it stood at each yield);
when `text_chat` raises, the exception propagates before any yield, and
when `text_chat` returns `None` the attribute assignment raises — both
are `none` here. -/
def text_chat_stream (attempt : Nat → String → Except String LLMResponse)
    (pick : Nat → List String → Nat) (api_keys : List String) :
    Option (List LLMResponse) :=
  match (text_chat attempt pick api_keys).2.1 with
  | .resp r => some [{ r with is_chunk := true }, { r with is_chunk := false }]
  | _ => none

/-! ## In-place mutation of the caller's history (lines 328-330, 181-183, 209-215) -/

/-- The value of a turn's `content` entry: Python `None`, a string, or a
list of typed items. -/
inductive PyContent where
  | pyNone
  | str (s : String)
  | items (l : List ContentItem)
deriving DecidableEq

/-- Python truthiness test (`not content`) for a content value. -/
def PyContent.falsy : PyContent → Bool
  | .pyNone => true
  | .str s => s = ""
  | .items l => l.isEmpty

/-- One conversation-history dict as the mutation code sees it: its role,
its `content` entry (`none` when the key is absent), and whether the
`_no_save` key is present. -/
structure Turn where
  role : String
  content : Option PyContent
  no_save : Bool
deriving DecidableEq

/-- Lines 328-330 of `text_chat`: `del part["_no_save"]` on every turn
of the assembled query. -/
def scrub_no_save (t : Turn) : Turn := { t with no_save := false }

/-- The in-place content normalisation `_query` applies to one message:
a *user* turn's content is overwritten with `""` only when it is a falsy
string (the `isinstance(message["content"], str)` guard — `None` content
is left alone); an *assistant* turn's content, when the key is present
and the value falsy (including `None`), is overwritten with `""`. -/
def normalize_content (t : Turn) : Turn :=
  if t.role = "user" then
    match t.content with
    | some (.str s) => if s = "" then { t with content := some (.str "") } else t
    | _ => t
  else if t.role = "assistant" then
    match t.content with
    | some v => if v.falsy then { t with content := some (.str "") } else t
    | none => t
  else t

/-- The net effect one `text_chat` call has on the caller's `contexts`
list elements: the dicts are shared (the list is copied, the dicts are
not), so each element is first `_no_save`-scrubbed and then
content-normalised in place. -/
def text_chat_context_effect (contexts : List Turn) : List Turn :=
  contexts.map fun t => normalize_content (scrub_no_save t)

/-! ## Theorems -/

/-- C10: with an empty configured `api_keys` pool, every `text_chat` call
fails with the `IndexError` from `random.choice` on an empty sequence,
after zero attempts (before any network request), and none of the typed
terminal outcomes (response, rate-limit raise, re-raise) is produced. -/
theorem C10_empty_pool_index_error (attempt : Nat → String → Except String LLMResponse)
    (pick : Nat → List String → Nat) :
    text_chat attempt pick [] = (0, ChatResult.indexError, []) := by
  simp [text_chat]

/-- C5: a vendor candidate whose parts are one text part and one
functionCall part (in either order) decodes to a unified response with
role `"tool"`, exactly one text segment in the result chain, and exactly
one tool-call record whose `tools_call_ids` entry equals the function
name. -/
theorem C5_text_with_function_call_decode (t n : String) (a : GArgs) :
    (decode_parts [GPart.text t, GPart.functionCall n a]).role = "tool" ∧
    (decode_parts [GPart.text t, GPart.functionCall n a]).result_chain = [Seg.plain t] ∧
    (decode_parts [GPart.text t, GPart.functionCall n a]).tools_call_ids = [n] ∧
    (decode_parts [GPart.text t, GPart.functionCall n a]).tools_call_name = [n] ∧
    (decode_parts [GPart.text t, GPart.functionCall n a]).tools_call_args = [a] ∧
    (decode_parts [GPart.functionCall n a, GPart.text t]).role = "tool" ∧
    (decode_parts [GPart.functionCall n a, GPart.text t]).result_chain = [Seg.plain t] ∧
    (decode_parts [GPart.functionCall n a, GPart.text t]).tools_call_ids = [n] :=
  ⟨rfl, rfl, rfl, rfl, rfl, rfl, rfl, rfl⟩

/-- C6 counterexample: the code removes *every* occurrence of `models/`
from a model name (Python `replace`), not only a leading path segment, so
on the eligible descriptor named `models/gemini/models/x` the returned
identifier is `gemini/x` while the claim's leading-segment strip yields
`gemini/models/x`. -/
theorem C6_counterexample :
    models_list [⟨"models/gemini/models/x", ["generateContent"]⟩] = ["gemini/x"] ∧
    models_list_claim [⟨"models/gemini/models/x", ["generateContent"]⟩] = ["gemini/models/x"] ∧
    models_list [⟨"models/gemini/models/x", ["generateContent"]⟩] ≠
      models_list_claim [⟨"models/gemini/models/x", ["generateContent"]⟩] :=
  ⟨by decide, by decide, by decide⟩

/-- C6 amended: `models_list` returns exactly the names of the
descriptors whose `supportedGenerationMethods` contain
`"generateContent"`, in order, with *every* occurrence of the substring
`models/` removed from each returned name. -/
theorem C6_models_list_filters_and_replaces (ds : List ModelDesc) :
    models_list ds =
      (ds.filter fun m => m.supportedGenerationMethods.contains "generateContent").map
        fun m => pyReplace m.name "models/" "" := by
  induction ds with
  | nil => rfl
  | cons m rest ih =>
    by_cases h : "generateContent" ∈ m.supportedGenerationMethods
    · simp [models_list, List.filter_cons, h, ih]
    · simp [models_list, List.filter_cons, h, ih]

/-- C7 counterexample: an image-URL item carrying a *png* data-URL is
encoded with its data equal to the original URL unchanged — only the
exact jpeg prefix `data:image/jpeg;base64,` is ever removed — while the
claim's any-image-prefix strip would yield the bare payload. -/
theorem C7_counterexample :
    encode_user_items [ContentItem.image_url "data:image/png;base64,AAA"] =
      [GPart.inlineData "image/jpeg" "data:image/png;base64,AAA"] ∧
    stripAnyImageDataUrl "data:image/png;base64,AAA" = "AAA" ∧
    ("data:image/png;base64,AAA" : String) ≠ "AAA" :=
  ⟨by decide, by decide, by decide⟩

/-- C7 amended: a user turn's list content fans out into exactly one
vendor part per item — a text item becomes a text part, and an image-URL
item becomes an inline-binary part with fixed MIME type `image/jpeg`
whose data is the URL with every occurrence of the exact string
`data:image/jpeg;base64,` (the jpeg prefix only) removed. -/
theorem C7_user_fan_out_jpeg_only (items : List ContentItem) :
    encode_user_items items =
      items.map (fun it => match it with
        | ContentItem.text s => GPart.text s
        | ContentItem.image_url u =>
          GPart.inlineData "image/jpeg" (pyReplace u "data:image/jpeg;base64," "")) ∧
    (encode_user_items items).length = items.length := by
  constructor
  · induction items with
    | nil => rfl
    | cons it rest ih => cases it <;> simp [encode_user_items, ih]
  · induction items with
    | nil => rfl
    | cons it rest ih => cases it <;> simp [encode_user_items, ih]

/-- C1 counterexample: with a pool of 11 keys all failing with `429`, the
call terminates after the fixed 10-attempt budget (not after `n = 11`
attempts) and falls through returning `None` instead of raising the
rate-limit-exhaustion error; the pool itself is unchanged. -/
theorem C1_counterexample :
    text_chat (fun _ _ => .error "429") (fun _ _ => 0)
      ["k01", "k02", "k03", "k04", "k05", "k06", "k07", "k08", "k09", "k10", "k11"] =
      (10, ChatResult.noneReturned,
        ["k01", "k02", "k03", "k04", "k05", "k06", "k07", "k08", "k09", "k10", "k11"]) ∧
    (10 : Nat) ≠ 11 ∧ ChatResult.noneReturned ≠ ChatResult.rateLimitRaise :=
  ⟨by decide, by decide, by decide⟩

/-- C2 counterexample: with a pool of 12 keys all failing with an
invalid-key error, `text_chat` exhausts the 10-attempt budget and
returns `None` to the caller — neither a unified response nor a raised
terminal error. -/
theorem C2_counterexample :
    text_chat (fun _ _ => .error "API key not valid") (fun _ _ => 0)
      ["a01", "a02", "a03", "a04", "a05", "a06", "a07", "a08", "a09", "a10", "a11", "a12"] =
      (10, ChatResult.noneReturned,
        ["a01", "a02", "a03", "a04", "a05", "a06", "a07", "a08", "a09", "a10", "a11", "a12"]) ∧
    ChatResult.noneReturned ≠ ChatResult.rateLimitRaise :=
  ⟨by decide, by decide⟩

/-- C9 counterexample: a *user* turn whose `content` is Python `None`
(falsy) is *not* overwritten with the empty string — the overwrite in the
user branch is guarded by `isinstance(message["content"], str)` — so the
claim's "a falsy content field of a user or assistant turn is overwritten
with the empty string" fails on this input. -/
theorem C9_counterexample :
    text_chat_context_effect [⟨"user", some PyContent.pyNone, false⟩] =
      [⟨"user", some PyContent.pyNone, false⟩] ∧
    PyContent.falsy PyContent.pyNone = true ∧
    some PyContent.pyNone ≠ some (PyContent.str "") :=
  ⟨by decide, by decide, by decide⟩

/-- Each negotiation state has at most three strippable features active. -/
theorem featureCount_le_three (s : NegState) : s.featureCount ≤ 3 := by
  unfold NegState.featureCount
  split_ifs <;> omega

/-- Helper for C3: against a vendor whose response is determined by the
request state and that only emits a rejection phrase when the matching
feature is actually present in the request, the `_query` loop terminates,
with a trace of at most `featureCount + 1` attempts. -/
theorem query_loop_fn_honest_terminates
    (resp : NegState → GemResult)
    (hsys : ∀ s, strContains (resp s).repr devInstrPhrase = true → s.system_instruction ≠ "")
    (htool : ∀ s, strContains (resp s).repr funcCallPhrase = true → s.tool.isSome = true)
    (hmod : ∀ s, strContains (resp s).repr multiModalPhrase = true → s.modalites ≠ ["Text"]) :
    ∀ fuel s, s.featureCount < fuel →
      ∃ tr o, query_loop_fn resp s fuel = some (tr, o) ∧ tr.length ≤ s.featureCount + 1 := by
  intro fuel
  induction fuel with
  | zero => intro s h; omega
  | succ n ih =>
    intro s hfc
    by_cases b1 : strContains (resp s).repr devInstrPhrase = true
    · have hs := hsys s b1
      have hstep : query_step s (resp s) = .inl { s with system_instruction := "" } := by
        simp [query_step, b1]
      have hdec : NegState.featureCount { s with system_instruction := "" } <
          NegState.featureCount s := by
        simp only [NegState.featureCount]
        simp only [if_neg hs]
        split_ifs <;> simp_all
      obtain ⟨tr, o, heq, hlen⟩ := ih { s with system_instruction := "" } (by omega)
      refine ⟨s :: tr, o, ?_, ?_⟩
      · simp [query_loop_fn, hstep, heq]
      · simp only [List.length_cons]
        omega
    · by_cases b2 : strContains (resp s).repr funcCallPhrase = true
      · have hs := htool s b2
        have hstep : query_step s (resp s) = .inl { s with tool := none } := by
          simp [query_step, b1, b2]
        have hdec : NegState.featureCount { s with tool := none } <
            NegState.featureCount s := by
          simp only [NegState.featureCount]
          simp only [hs]
          split_ifs <;> simp_all
        obtain ⟨tr, o, heq, hlen⟩ := ih { s with tool := none } (by omega)
        refine ⟨s :: tr, o, ?_, ?_⟩
        · simp [query_loop_fn, hstep, heq]
        · simp only [List.length_cons]
          omega
      · by_cases b3 : strContains (resp s).repr multiModalPhrase = true
        · have hs := hmod s b3
          have hstep : query_step s (resp s) = .inl { s with modalites := ["Text"] } := by
            simp [query_step, b1, b2, b3]
          have hdec : NegState.featureCount { s with modalites := ["Text"] } <
              NegState.featureCount s := by
            simp only [NegState.featureCount]
            simp only [if_neg hs]
            split_ifs <;> simp_all
          obtain ⟨tr, o, heq, hlen⟩ := ih { s with modalites := ["Text"] } (by omega)
          refine ⟨s :: tr, o, ?_, ?_⟩
          · simp [query_loop_fn, hstep, heq]
          · simp only [List.length_cons]
            omega
        · cases hc : (resp s).candidates with
          | none =>
            refine ⟨[s], .vendorError ("Gemini 返回异常结果: " ++ (resp s).repr), ?_, ?_⟩
            · simp [query_loop_fn, query_step, b1, b2, b3, hc]
            · simp
          | some cs =>
            refine ⟨[s], .ok cs, ?_, ?_⟩
            · simp [query_loop_fn, query_step, b1, b2, b3, hc]
            · simp

/-- C3 counterexample: the loop caps nothing — it re-checks the response
*text*, not the remaining features.  Against a vendor that returns the
system-instruction rejection phrase on every attempt, the loop is still
running after 4 attempts (the claimed bound of 3 degrade-retries) and
still running after 10: it never terminates. -/
theorem C3_counterexample :
    query_loop_fn (fun _ => ⟨devInstrPhrase, none⟩)
      ⟨"persona", some "toolSchema", ["Text", "Image"]⟩ 4 = none ∧
    query_loop_fn (fun _ => ⟨devInstrPhrase, none⟩)
      ⟨"persona", some "toolSchema", ["Text", "Image"]⟩ 10 = none :=
  ⟨by decide, by decide⟩

/-- C3 amended: provided the vendor only emits a rejection phrase for a
feature that is actually present in the request (so a stripped feature's
rejection never recurs), the loop terminates within 4 attempts — at most
3 degrade-retries — returning a response or raising the vendor-protocol
error; with a vendor that repeats the same rejection text regardless of
the request, the loop never terminates. -/
theorem C3_bounded_retries_for_honest_vendor
    (resp : NegState → GemResult) (s : NegState)
    (hsys : ∀ s2, strContains (resp s2).repr devInstrPhrase = true →
      s2.system_instruction ≠ "")
    (htool : ∀ s2, strContains (resp s2).repr funcCallPhrase = true → s2.tool.isSome = true)
    (hmod : ∀ s2, strContains (resp s2).repr multiModalPhrase = true →
      s2.modalites ≠ ["Text"]) :
    ∃ tr o, query_loop_fn resp s 4 = some (tr, o) ∧ tr.length ≤ 4 := by
  obtain ⟨tr, o, heq, hlen⟩ :=
    query_loop_fn_honest_terminates resp hsys htool hmod 4 s
      (lt_of_le_of_lt (featureCount_le_three s) (by omega))
  exact ⟨tr, o, heq, by have := featureCount_le_three s; omega⟩

/-- C3 witness: a vendor that accepts everything outright satisfies the
honesty hypotheses vacuously, and the loop indeed resolves within the
bound. -/
theorem C3_witness :
    ∃ tr o, query_loop_fn (fun _ => ⟨"ok", some [[GPart.text "4"]]⟩)
      ⟨"persona", some "toolSchema", ["Text", "Image"]⟩ 4 = some (tr, o) ∧ tr.length ≤ 4 :=
  C3_bounded_retries_for_honest_vendor _ _
    (fun _ h => absurd h (by decide))
    (fun _ h => absurd h (by decide))
    (fun _ h => absurd h (by decide))

/-- C4: when the first vendor response contains the system-instruction
rejection phrase and the second contains no rejection phrase and has a
`candidates` field, the loop makes exactly two attempts (one retry); the
retried request's state has an empty system instruction, and the payload
built for it omits the `system_instruction` field entirely. -/
theorem C4_single_retry_clears_system_instruction
    (resp : Nat → GemResult) (s : NegState) (cs : List (List GPart))
    (contents : List GTurn) (safety : List (String × String))
    (h0 : strContains (resp 0).repr devInstrPhrase = true)
    (h1 : strContains (resp 1).repr devInstrPhrase = false)
    (h2 : strContains (resp 1).repr funcCallPhrase = false)
    (h3 : strContains (resp 1).repr multiModalPhrase = false)
    (hc : (resp 1).candidates = some cs) :
    query_loop_seq resp s 0 10 =
      some ([s, { s with system_instruction := "" }], QueryOutcome.ok cs) ∧
    (generate_content_payload contents
        (NegState.system_instruction { s with system_instruction := "" })
        ({ s with system_instruction := "" } : NegState).tool
        ({ s with system_instruction := "" } : NegState).modalites
        safety).system_instruction = none := by
  constructor
  · show query_loop_seq resp s 0 (9 + 1) = _
    simp [query_loop_seq, query_step, h0, h1, h2, h3, hc]
  · rfl

/-- C4 witness: a concrete run where attempt 0 is rejected for the system
instruction and attempt 1 succeeds. -/
theorem C4_witness :
    query_loop_seq
      (fun i => if i = 0 then ⟨devInstrPhrase, none⟩ else ⟨"ok", some [[GPart.text "4"]]⟩)
      ⟨"persona", some "toolSchema", ["Text"]⟩ 0 10 =
      some ([⟨"persona", some "toolSchema", ["Text"]⟩, ⟨"", some "toolSchema", ["Text"]⟩],
        QueryOutcome.ok [[GPart.text "4"]]) ∧
    (generate_content_payload [] "" (some "toolSchema") ["Text"] []).system_instruction = none :=
  C4_single_retry_clears_system_instruction
    (fun i => if i = 0 then ⟨devInstrPhrase, none⟩ else ⟨"ok", some [[GPart.text "4"]]⟩)
    ⟨"persona", some "toolSchema", ["Text"]⟩ [[GPart.text "4"]] [] []
    (by decide) (by decide) (by decide) (by decide) (by decide)

/-- Helper for C1: when every attempt fails retriably, the retry loop
consumes exactly one key per attempt and raises the rate-limit exhaustion
after as many attempts as there were keys, provided the fuel covers the
pool. -/
theorem text_chat_loop_all_retriable_fail
    (attempt : Nat → String → Except String LLMResponse)
    (pick : Nat → List String → Nat)
    (hfail : ∀ i k, ∃ e, attempt i k = .error e ∧ retriableErr e = true) :
    ∀ fuel keys chosen i, chosen ∈ keys → keys.length ≤ fuel →
      text_chat_loop attempt pick keys chosen i fuel =
        (keys.length, ChatResult.rateLimitRaise) := by
  intro fuel
  induction fuel with
  | zero =>
    intro keys chosen i hmem hlen
    have h1 : 0 < keys.length := List.length_pos_of_mem hmem
    omega
  | succ n ih =>
    intro keys chosen i hmem hlen
    obtain ⟨e, he, hret⟩ := hfail i chosen
    have hlenE : (keys.erase chosen).length = keys.length - 1 :=
      List.length_erase_of_mem hmem
    have h1 : 0 < keys.length := List.length_pos_of_mem hmem
    by_cases hpos : 0 < (keys.erase chosen).length
    · have hidx : pick (i + 1) (keys.erase chosen) % (keys.erase chosen).length <
          (keys.erase chosen).length := Nat.mod_lt _ hpos
      have hget := List.get?_eq_get hidx
      have hmem2 := List.get_mem (keys.erase chosen) _ hidx
      have hrec := ih (keys.erase chosen) _ (i + 1) hmem2 (by omega)
      have hkl : (keys.erase chosen).length + 1 = keys.length := by omega
      simp only [text_chat_loop, he, hret, if_true, hpos, if_pos, hget, hrec, hkl]
    · have hone : keys.length = 1 := by omega
      simp [text_chat_loop, he, hret, hpos, hone]

/-- C1 amended: for a pool of `n` keys with `1 ≤ n ≤ 10` (so the fixed
10-attempt budget never binds), if every attempt with every credential
fails with a 429 or invalid-key error, `text_chat` terminates after
exactly `n` attempts by raising the rate-limit-exhaustion error, and the
provider's `api_keys` pool is returned unchanged (only the call-local
copy shrinks); with `n > 10` the budget is exhausted first and the call
returns `None` instead. -/
theorem C1_rate_limit_exhaustion
    (attempt : Nat → String → Except String LLMResponse)
    (pick : Nat → List String → Nat) (api_keys : List String)
    (hfail : ∀ i k, ∃ e, attempt i k = .error e ∧ retriableErr e = true)
    (hn : 1 ≤ api_keys.length) (hbudget : api_keys.length ≤ 10) :
    text_chat attempt pick api_keys =
      (api_keys.length, ChatResult.rateLimitRaise, api_keys) := by
  have hpos : 0 < api_keys.length := hn
  have hidx : pick 0 api_keys % api_keys.length < api_keys.length := Nat.mod_lt _ hpos
  have hget := List.get?_eq_get hidx
  have hmem := List.get_mem api_keys _ hidx
  have hloop := text_chat_loop_all_retriable_fail attempt pick hfail 10 api_keys _ 0 hmem hbudget
  simp only [text_chat, hget, hloop]

/-- C1 witness: three keys, every attempt a 429 — three attempts, the
rate-limit raise, the pool unchanged. -/
theorem C1_witness :
    text_chat (fun _ _ => .error "429 Too Many Requests") (fun _ _ => 0) ["ka", "kb", "kc"] =
      (3, ChatResult.rateLimitRaise, ["ka", "kb", "kc"]) :=
  C1_rate_limit_exhaustion _ _ _
    (fun _ _ => ⟨"429 Too Many Requests", rfl, by decide⟩) (by decide) (by decide)

/-- Helper for C2: with fuel covering the pool, the retry loop can only
end in a returned response, the rate-limit raise, or a re-raised
non-retriable error — never the silent `None` fall-through and never an
`IndexError`. -/
theorem text_chat_loop_no_silent_none
    (attempt : Nat → String → Except String LLMResponse)
    (pick : Nat → List String → Nat) :
    ∀ fuel keys chosen i, chosen ∈ keys → keys.length ≤ fuel →
      (∃ r, (text_chat_loop attempt pick keys chosen i fuel).2 = ChatResult.resp r) ∨
        (text_chat_loop attempt pick keys chosen i fuel).2 = ChatResult.rateLimitRaise ∨
        ∃ e, (text_chat_loop attempt pick keys chosen i fuel).2 = ChatResult.reraise e := by
  intro fuel
  induction fuel with
  | zero =>
    intro keys chosen i hmem hlen
    have h1 : 0 < keys.length := List.length_pos_of_mem hmem
    omega
  | succ n ih =>
    intro keys chosen i hmem hlen
    have h1 : 0 < keys.length := List.length_pos_of_mem hmem
    cases hat : attempt i chosen with
    | ok r => exact Or.inl ⟨r, by simp [text_chat_loop, hat]⟩
    | error e =>
      by_cases hret : retriableErr e = true
      · have hlenE : (keys.erase chosen).length = keys.length - 1 :=
          List.length_erase_of_mem hmem
        by_cases hpos : 0 < (keys.erase chosen).length
        · have hidx : pick (i + 1) (keys.erase chosen) % (keys.erase chosen).length <
              (keys.erase chosen).length := Nat.mod_lt _ hpos
          have hget := List.get?_eq_get hidx
          have hmem2 := List.get_mem (keys.erase chosen) _ hidx
          have hrec := ih (keys.erase chosen) _ (i + 1) hmem2 (by omega)
          have hget2 : (keys.erase chosen)[pick (i + 1) (keys.erase chosen) %
              (keys.erase chosen).length]? = some ((keys.erase chosen).get ⟨_, hidx⟩) :=
            List.getElem?_eq_getElem hidx
          simpa [text_chat_loop, hat, hret, hpos, hget2] using hrec
        · exact Or.inr (Or.inl (by simp [text_chat_loop, hat, hret, hpos]))
      · exact Or.inr (Or.inr ⟨e, by simp [text_chat_loop, hat, hret]⟩)

/-- C2 amended: for a pool of size `1 ≤ n ≤ 10` (so the fixed 10-attempt
budget never binds), under any sequence of per-attempt outcomes,
`text_chat` either returns a response or raises exactly one terminal
error (the rate-limit exhaustion or a re-raised non-retriable error) —
never the silent `None` return — and the pool is unchanged after the
call; with more than 10 always-retriably-failing keys it returns `None`. -/
theorem C2_response_or_single_terminal_error
    (attempt : Nat → String → Except String LLMResponse)
    (pick : Nat → List String → Nat) (api_keys : List String)
    (hn : 1 ≤ api_keys.length) (hbudget : api_keys.length ≤ 10) :
    ((∃ r, (text_chat attempt pick api_keys).2.1 = ChatResult.resp r) ∨
      (text_chat attempt pick api_keys).2.1 = ChatResult.rateLimitRaise ∨
      ∃ e, (text_chat attempt pick api_keys).2.1 = ChatResult.reraise e) ∧
    (text_chat attempt pick api_keys).2.2 = api_keys := by
  have hpos : 0 < api_keys.length := hn
  have hidx : pick 0 api_keys % api_keys.length < api_keys.length := Nat.mod_lt _ hpos
  have hget := List.get?_eq_get hidx
  have hmem := List.get_mem api_keys _ hidx
  have hloop := text_chat_loop_no_silent_none attempt pick 10 api_keys _ 0 hmem hbudget
  have hget2 : api_keys[pick 0 api_keys % api_keys.length]? =
      some (api_keys.get ⟨_, hidx⟩) := List.getElem?_eq_getElem hidx
  constructor
  · simpa [text_chat, hget2] using hloop
  · simp [text_chat, hget2]

/-- C2 witness: a two-key pool whose first attempt succeeds resolves to a
returned response with the pool unchanged. -/
theorem C2_witness :
    ((∃ r, (text_chat (fun _ _ => .ok (LLMResponse.init "assistant")) (fun _ _ => 0)
        ["kx", "ky"]).2.1 = ChatResult.resp r) ∨
      (text_chat (fun _ _ => .ok (LLMResponse.init "assistant")) (fun _ _ => 0)
        ["kx", "ky"]).2.1 = ChatResult.rateLimitRaise ∨
      ∃ e, (text_chat (fun _ _ => .ok (LLMResponse.init "assistant")) (fun _ _ => 0)
        ["kx", "ky"]).2.1 = ChatResult.reraise e) ∧
    (text_chat (fun _ _ => .ok (LLMResponse.init "assistant")) (fun _ _ => 0)
      ["kx", "ky"]).2.2 = ["kx", "ky"] :=
  C2_response_or_single_terminal_error _ _ _ (by decide) (by decide)

/-- C8: whenever the underlying non-streaming `text_chat` call succeeds
with response `r`, `text_chat_stream` yields exactly two events carrying
the same content: the first marked as a chunk (`is_chunk = true` at the
moment it is yielded) and the second marked final (`is_chunk = false`). -/
theorem C8_stream_two_events
    (attempt : Nat → String → Except String LLMResponse)
    (pick : Nat → List String → Nat) (api_keys : List String)
    (n : Nat) (r : LLMResponse) (ks : List String)
    (h : text_chat attempt pick api_keys = (n, ChatResult.resp r, ks)) :
    ∃ a b, text_chat_stream attempt pick api_keys = some [a, b] ∧
      a.is_chunk = true ∧ b.is_chunk = false ∧
      a = { r with is_chunk := true } ∧ b = { r with is_chunk := false } := by
  refine ⟨_, _, ?_, rfl, rfl, rfl, rfl⟩
  simp [text_chat_stream, h]

/-- C8 witness: a single always-succeeding key yields the two-event
pseudo-stream. -/
theorem C8_witness :
    ∃ a b, text_chat_stream (fun _ _ => .ok (LLMResponse.init "assistant"))
        (fun _ _ => 0) ["k"] = some [a, b] ∧
      a.is_chunk = true ∧ b.is_chunk = false ∧
      a = { LLMResponse.init "assistant" with is_chunk := true } ∧
      b = { LLMResponse.init "assistant" with is_chunk := false } :=
  C8_stream_two_events _ _ _ 1 (LLMResponse.init "assistant") ["k"] (by decide)

/-- `normalize_content` never touches the `_no_save` marker. -/
theorem normalize_content_no_save (u : Turn) :
    (normalize_content u).no_save = u.no_save := by
  unfold normalize_content
  split_ifs with h1 h2
  · cases hc : u.content with
    | none => rfl
    | some v =>
      cases v with
      | pyNone => rfl
      | str s => by_cases hs : s = "" <;> simp [hs]
      | items l => rfl
  · cases hc : u.content with
    | none => rfl
    | some v => by_cases hv : v.falsy = true <;> simp [hv]
  · rfl

/-- C9 amended: a `text_chat` call mutates the caller's history dicts in
place — the `_no_save` key is deleted from every turn, and a falsy
`content` of an *assistant* turn is overwritten with `""`; a *user*
turn's content is overwritten only when it is a falsy *string* (a no-op),
so a user turn whose content is `None` is left as `None`.  Any turn that
carried `_no_save` is therefore not left unchanged by the call. -/
theorem C9_context_mutation (t : Turn) :
    ∃ t2, text_chat_context_effect [t] = [t2] ∧
      t2.no_save = false ∧
      (t.role = "assistant" → ∀ v, t.content = some v → v.falsy = true →
        t2.content = some (PyContent.str "")) ∧
      (t.role = "user" → t.content = some PyContent.pyNone →
        t2.content = some PyContent.pyNone) ∧
      (t.no_save = true → t2 ≠ t) := by
  refine ⟨normalize_content (scrub_no_save t), rfl, ?_, ?_, ?_, ?_⟩
  · rw [normalize_content_no_save]
    rfl
  · intro hrole v hv hfalsy
    unfold normalize_content scrub_no_save
    simp [hrole, hv, hfalsy]
  · intro hrole hv
    unfold normalize_content scrub_no_save
    simp [hrole, hv]
  · intro hns heq
    have h2 : (normalize_content (scrub_no_save t)).no_save = false := by
      rw [normalize_content_no_save]
      rfl
    rw [heq, hns] at h2
    exact Bool.noConfusion h2

/-- C9 witness: an assistant turn with `None` content and a `_no_save`
marker is scrubbed and its content overwritten. -/
theorem C9_witness :
    ∃ t2, text_chat_context_effect [⟨"assistant", some PyContent.pyNone, true⟩] = [t2] ∧
      t2.no_save = false ∧
      ((⟨"assistant", some PyContent.pyNone, true⟩ : Turn).role = "assistant" →
        ∀ v, (⟨"assistant", some PyContent.pyNone, true⟩ : Turn).content = some v →
          v.falsy = true → t2.content = some (PyContent.str "")) ∧
      ((⟨"assistant", some PyContent.pyNone, true⟩ : Turn).role = "user" →
        (⟨"assistant", some PyContent.pyNone, true⟩ : Turn).content = some PyContent.pyNone →
        t2.content = some PyContent.pyNone) ∧
      ((⟨"assistant", some PyContent.pyNone, true⟩ : Turn).no_save = true →
        t2 ≠ ⟨"assistant", some PyContent.pyNone, true⟩) :=
  C9_context_mutation ⟨"assistant", some PyContent.pyNone, true⟩
